import Mathlib

/-!
Verification of the health-check dashboard frontend (`src/App.tsx`).

The program is a single React component with three state cells
(`healthData`, `loading`, `error`), one asynchronous action `checkHealth`
that performs a GET request and resolves into a success or failure state,
and a pure helper `formatUptime`.  We embed:

* JavaScript numbers as `JSNum`: a rational value or the non-finite token
  `JSNum.nan` (JavaScript `NaN`, to which `undefined` coerces under
  arithmetic).  Floating-point rounding and infinities play no role in the
  reachable computations of this program (the only divisors are the
  constants 3600 and 60), so rationals model the arithmetic exactly.
* the component state as `AppState`;
* the resolution of one `checkHealth` invocation as a pure function of the
  prior state and a `FetchOutcome` describing what the network and the
  JSON parser did; totality of this function over all outcomes is the
  embedding of "every failure is caught inside the action";
* the button guard (`disabled={loading}` on the button wired to
  `onClick={checkHealth}`) as `triggerStart` / `triggerComplete`, which
  also report the list of network requests issued;
* the JSX conditional rendering (`{error && …}`, `{healthData && …}` and
  the field interpolations) as `displayedError`, `displayedReport` and the
  `rendered*` functions.
-/

/-- A JavaScript number: either a finite (rational) value or `NaN`.
`undefined` entering arithmetic coerces to `NaN`, which propagates. -/
inductive JSNum where
  | nan : JSNum
  | num (q : ℚ) : JSNum
deriving DecidableEq

/-- JavaScript truncation toward zero (the rounding used by `%`),
written with `Rat.floor` so that it evaluates by kernel reduction
(for `x < 0`, `-⌊-x⌋ = ⌈x⌉`). -/
def rtrunc (x : ℚ) : ℤ := if 0 ≤ x then Rat.floor x else -Rat.floor (-x)

/-- JavaScript division.  Division by zero yields a non-finite result in
JavaScript (±Infinity, or `NaN` for 0/0), represented here by the
non-finite token; in this program the divisors are 3600 and 60. -/
def jsDiv : JSNum → JSNum → JSNum
  | .num a, .num b => if b = 0 then .nan else .num (a / b)
  | _, _ => .nan

/-- JavaScript remainder `a % b`: `a - b * trunc(a / b)` for finite
operands with `b ≠ 0`; the sign follows the dividend.  `x % 0` is `NaN`. -/
def jsMod : JSNum → JSNum → JSNum
  | .num a, .num b => if b = 0 then .nan else .num (a - b * rtrunc (a / b))
  | _, _ => .nan

/-- `Math.floor`. `Math.floor(NaN)` is `NaN`. -/
def jsFloor : JSNum → JSNum
  | .nan => .nan
  | .num a => .num (Rat.floor a : ℚ)

/-- JavaScript `String(n)` as used in the template literal of
`formatUptime`.  Every value stringified there is a `Math.floor` result,
hence an integer (or `NaN`); the non-integer branch is unreachable in this
program and is given the exact fraction rendering. -/
def jsToString : JSNum → String
  | .nan => "NaN"
  | .num q => if q.den = 1 then toString q.num
              else toString q.num ++ "/" ++ toString q.den

/-- `formatUptime` from `App.tsx` lines 49–54:
```
const hours = Math.floor(seconds / 3600);
const minutes = Math.floor((seconds % 3600) / 60);
const secs = Math.floor(seconds % 60);
return `${hours}h ${minutes}m ${secs}s`;
``` -/
def formatUptime (seconds : JSNum) : String :=
  let hours := jsFloor (jsDiv seconds (.num 3600))
  let minutes := jsFloor (jsDiv (jsMod seconds (.num 3600)) (.num 60))
  let secs := jsFloor (jsMod seconds (.num 60))
  jsToString hours ++ "h " ++ jsToString minutes ++ "m " ++ jsToString secs ++ "s"

/-- A JSON object parsed from the response body, read at the five fields
the component uses (`interface HealthCheck`).  A `none` field is a field
absent from the payload: reading it yields `undefined`. -/
structure HealthPayload where
  status : Option String
  timestamp : Option String
  uptime : Option ℚ
  message : Option String
  environment : Option String
deriving DecidableEq

/-- The payload with every field absent. -/
def emptyPayload : HealthPayload := ⟨none, none, none, none, none⟩

/-- The payload of the specification's example response. -/
def samplePayload : HealthPayload :=
  ⟨some "ok", some "2024-01-01T00:00:00.000Z", some 3665,
   some "Service is healthy", some "production"⟩

/-- The component state: `useState` cells `healthData`, `loading`,
`error` (`App.tsx` lines 13–15). -/
structure AppState where
  healthData : Option HealthPayload
  loading : Bool
  error : Option String
deriving DecidableEq

/-- The initial state: `useState(null)`, `useState(false)`, `useState(null)`. -/
def initialState : AppState := ⟨none, false, none⟩

/-- A value thrown inside the `try` block: either an `Error` instance
carrying its `message`, or any non-`Error` value.  `fetch` rejections
(`TypeError`) and `response.json()` rejections (`SyntaxError`) are both
`Error` instances. -/
inductive ThrownValue where
  | isError (msg : String) : ThrownValue
  | notError : ThrownValue
deriving DecidableEq

/-- The `catch` handler's message selection (`App.tsx` line 41):
`err instanceof Error ? err.message : "An unknown error occurred"`. -/
def thrownMessage : ThrownValue → String
  | .isError msg => msg
  | .notError => "An unknown error occurred"

/-- What `await response.json()` does: rejects with a thrown value
(malformed body) or resolves to the parsed payload. -/
inductive BodyOutcome where
  | throws (v : ThrownValue) : BodyOutcome
  | parsed (data : HealthPayload) : BodyOutcome
deriving DecidableEq

/-- An HTTP response: its status code and what reading its body does. -/
structure Response where
  status : ℕ
  body : BodyOutcome
deriving DecidableEq

/-- `Response.ok` of the Fetch API: status in the inclusive range 200–299. -/
def responseOk (status : ℕ) : Bool := 200 ≤ status && status ≤ 299

/-- What `await fetch(...)` does: rejects with a thrown value (transport
failure — no response) or resolves to a response. -/
inductive FetchOutcome where
  | throws (v : ThrownValue) : FetchOutcome
  | returns (r : Response) : FetchOutcome
deriving DecidableEq

/-- The state left by the `catch` handler followed by `finally`
(`App.tsx` lines 39–46): `setError(message)`, `setHealthData(null)`,
`setLoading(false)`. -/
def failState (msg : String) : AppState :=
  { healthData := none, loading := false, error := some msg }

/-- The message of the error thrown on a non-success status
(`App.tsx` line 34): `` `HTTP error! status: ${response.status}` ``. -/
def httpErrorMessage (status : ℕ) : String :=
  "HTTP error! status: " ++ toString status

/-- The synchronous prefix of `checkHealth` (`App.tsx` lines 22–23):
`setLoading(true); setError(null)`. -/
def checkHealthStart (s : AppState) : AppState :=
  { s with loading := true, error := none }

/-- The URL of the request issued by `checkHealth` (`App.tsx` line 26):
`` `${BACKEND_URL}/api/health` ``. -/
def requestUrl (baseUrl : String) : String := baseUrl ++ "/api/health"

/-- `BACKEND_URL` (`App.tsx` lines 18–19):
`import.meta.env.VITE_BACKEND_URL || "http://localhost:8000"`.
`none` models an unset variable (`undefined`); the empty string is falsy
in JavaScript, so `||` also falls back on it. -/
def BACKEND_URL (envVar : Option String) : String :=
  match envVar with
  | some v => if v = "" then "http://localhost:8000" else v
  | none => "http://localhost:8000"

/-- The request `checkHealth` issues: a GET to `requestUrl` with a
`Content-Type: application/json` header (`App.tsx` lines 26–31). -/
structure Request where
  method : String
  url : String
  contentType : String
deriving DecidableEq

/-- The one request of a `checkHealth` invocation. -/
def healthRequest (baseUrl : String) : Request :=
  { method := "GET", url := requestUrl baseUrl, contentType := "application/json" }

/-- Resolution of the `try/catch/finally` of `checkHealth`
(`App.tsx` lines 25–46) against the state left by `checkHealthStart`:

* `fetch` rejected → `catch` + `finally`;
* `!response.ok` → `throw new Error(...)` → `catch` + `finally`;
* `response.json()` rejected → `catch` + `finally`;
* otherwise `setHealthData(data)` + `finally`.

The function is total in the outcome: every failure is absorbed into a
`failState`, none escapes the handler. -/
def checkHealthResolve (s : AppState) : FetchOutcome → AppState
  | .throws v => failState (thrownMessage v)
  | .returns r =>
    if responseOk r.status then
      match r.body with
      | .throws v => failState (thrownMessage v)
      | .parsed data => { s with loading := false, healthData := some data }
    else failState (httpErrorMessage r.status)

/-- One complete `checkHealth` invocation: the synchronous prefix followed
by the resolution of its awaited outcome. -/
def checkHealth (s : AppState) (o : FetchOutcome) : AppState :=
  checkHealthResolve (checkHealthStart s) o

/-- Whether an outcome is the clean success path (success status and a
body that parses); every other outcome lands in the `catch` handler. -/
def isSuccessOutcome : FetchOutcome → Bool
  | .returns r => responseOk r.status &&
      (match r.body with | .parsed _ => true | .throws _ => false)
  | .throws _ => false

/-- Clicking the button, up to the point the request is issued.  The
button is `disabled={loading}` (`App.tsx` line 71), so a click while
loading does nothing and issues no request; otherwise `checkHealth` runs
its synchronous prefix and issues exactly one request. -/
def triggerStart (s : AppState) (baseUrl : String) : AppState × List Request :=
  if s.loading then (s, []) else (checkHealthStart s, [healthRequest baseUrl])

/-- Clicking the button and letting the invocation (if any) run to
completion with outcome `o`, together with the requests issued. -/
def triggerComplete (s : AppState) (baseUrl : String) (o : FetchOutcome) :
    AppState × List Request :=
  if s.loading then (s, []) else (checkHealth s o, [healthRequest baseUrl])

/-- The error box (`App.tsx` line 87) is rendered by `{error && …}`:
shown exactly when `error` is a truthy string (non-null and non-empty). -/
def displayedError (s : AppState) : Option String :=
  match s.error with
  | some m => if m = "" then none else some m
  | none => none

/-- The report box (`App.tsx` line 101) is rendered by
`{healthData && …}`: an object is always truthy, `null` is falsy. -/
def displayedReport (s : AppState) : Option HealthPayload := s.healthData

/-- A JSX text interpolation of a string-typed field:  React renders
`undefined` as nothing, i.e. the empty string. -/
def renderString (v : Option String) : String := v.getD ""

/-- `Backend Status: {healthData.status}` (`App.tsx` line 107). -/
def renderedStatus (p : HealthPayload) : String := renderString p.status

/-- `{healthData.environment}` (`App.tsx` line 112). -/
def renderedEnvironment (p : HealthPayload) : String := renderString p.environment

/-- `{healthData.message}` (`App.tsx` line 126). -/
def renderedMessage (p : HealthPayload) : String := renderString p.message

/-- Reading a possibly-absent numeric field for use in arithmetic:
`undefined` coerces to `NaN`. -/
def jsOfField : Option ℚ → JSNum
  | some q => .num q
  | none => .nan

/-- `{formatUptime(healthData.uptime)}` (`App.tsx` line 116). -/
def renderedUptime (p : HealthPayload) : String := formatUptime (jsOfField p.uptime)

/-! ### Helper lemmas -/

/-- `Rat.floor` agrees with the floor of the `FloorRing` instance. -/
theorem ratFloor_eq (q : ℚ) : Rat.floor q = ⌊q⌋ :=
  (Rat.floor_def' q).trans Rat.floor_def.symm

/-- On non-negative inputs, truncation toward zero is the floor. -/
theorem rtrunc_eq_floor (x : ℚ) (hx : 0 ≤ x) : rtrunc x = ⌊x⌋ := by
  rw [rtrunc, if_pos hx, ratFloor_eq]

/-- Stringifying an integer-valued JavaScript number prints the integer. -/
theorem jsToString_intCast (n : ℤ) : jsToString (.num (n : ℚ)) = toString n := by
  simp [jsToString]

theorem toString_natCast (k : ℕ) : toString ((k : ℕ) : ℤ) = toString k := rfl

/-- `formatUptime` on a non-negative finite value, with the floors in
`FloorRing` form. -/
theorem formatUptime_num (q : ℚ) (hq : 0 ≤ q) :
    formatUptime (.num q) =
      toString ⌊q / 3600⌋ ++ "h " ++
        toString ⌊(q - 3600 * (⌊q / 3600⌋ : ℚ)) / 60⌋ ++ "m " ++
        toString ⌊q - 60 * (⌊q / 60⌋ : ℚ)⌋ ++ "s" := by
  have h36 : ((3600 : ℚ)) ≠ 0 := by norm_num
  have h60 : ((60 : ℚ)) ≠ 0 := by norm_num
  have t36 : rtrunc (q / 3600) = ⌊q / 3600⌋ := rtrunc_eq_floor _ (by positivity)
  have t60 : rtrunc (q / 60) = ⌊q / 60⌋ := rtrunc_eq_floor _ (by positivity)
  simp only [formatUptime, jsDiv, jsMod, jsFloor, if_neg h36, if_neg h60, t36, t60,
    ratFloor_eq, jsToString_intCast]

/-- `formatUptime` on a natural number of seconds, in terms of natural
division and remainder. -/
theorem formatUptime_natCast (n : ℕ) :
    formatUptime (.num (n : ℚ)) =
      toString (n / 3600) ++ "h " ++ toString (n % 3600 / 60) ++ "m " ++
        toString (n % 60) ++ "s" := by
  have c36 : ((3600 : ℚ)) = ((3600 : ℕ) : ℚ) := by norm_num
  have c60 : ((60 : ℚ)) = ((60 : ℕ) : ℚ) := by norm_num
  have f1 : ⌊(n : ℚ) / 3600⌋ = ((n / 3600 : ℕ) : ℤ) := by
    rw [c36, Rat.floor_natCast_div_natCast]
    exact (Int.ofNat_ediv n 3600).symm
  have f2 : ⌊(n : ℚ) / 60⌋ = ((n / 60 : ℕ) : ℤ) := by
    rw [c60, Rat.floor_natCast_div_natCast]
    exact (Int.ofNat_ediv n 60).symm
  have f3 : ⌊((n % 3600 : ℕ) : ℚ) / 60⌋ = ((n % 3600 / 60 : ℕ) : ℤ) := by
    rw [c60, Rat.floor_natCast_div_natCast]
    exact (Int.ofNat_ediv (n % 3600) 60).symm
  have e1 : (n : ℚ) - 3600 * ((⌊(n : ℚ) / 3600⌋ : ℤ) : ℚ) = ((n % 3600 : ℕ) : ℚ) := by
    rw [f1, Int.cast_natCast]
    have hc : ((3600 * (n / 3600) + n % 3600 : ℕ) : ℚ) = (n : ℚ) := by
      rw [Nat.div_add_mod]
    rw [Nat.cast_add, Nat.cast_mul, Nat.cast_ofNat] at hc
    linarith [hc]
  have e2 : (n : ℚ) - 60 * ((⌊(n : ℚ) / 60⌋ : ℤ) : ℚ) = ((n % 60 : ℕ) : ℚ) := by
    rw [f2, Int.cast_natCast]
    have hc : ((60 * (n / 60) + n % 60 : ℕ) : ℚ) = (n : ℚ) := by
      rw [Nat.div_add_mod]
    rw [Nat.cast_add, Nat.cast_mul, Nat.cast_ofNat] at hc
    linarith [hc]
  rw [formatUptime_num _ (by positivity), e1, e2, f1, f3, Int.floor_natCast,
    toString_natCast, toString_natCast, toString_natCast]

/-- The three floor components add back up to `⌊q⌋`. -/
theorem uptime_components_floor (q : ℚ) :
    ⌊q / 3600⌋ * 3600 + ⌊(q - 3600 * (⌊q / 3600⌋ : ℚ)) / 60⌋ * 60 +
      ⌊q - 60 * (⌊q / 60⌋ : ℚ)⌋ = ⌊q⌋ := by
  have hm : ⌊(q - 3600 * (⌊q / 3600⌋ : ℚ)) / 60⌋ = ⌊q / 60⌋ - 60 * ⌊q / 3600⌋ := by
    have e : (q - 3600 * (⌊q / 3600⌋ : ℚ)) / 60 = q / 60 - ((60 * ⌊q / 3600⌋ : ℤ) : ℚ) := by
      push_cast
      ring
    rw [e, Int.floor_sub_int]
  have hs : ⌊q - 60 * (⌊q / 60⌋ : ℚ)⌋ = ⌊q⌋ - 60 * ⌊q / 60⌋ := by
    have e : q - 60 * (⌊q / 60⌋ : ℚ) = q - ((60 * ⌊q / 60⌋ : ℤ) : ℚ) := by
      push_cast
      ring
    rw [e, Int.floor_sub_int]
  rw [hm, hs]
  ring

/-- C1: for every non-negative number of seconds, `formatUptime(seconds)`
returns `"{h}h {m}m {s}s"` with `h = ⌊seconds/3600⌋`,
`m = ⌊(seconds mod 3600)/60⌋`, `s = ⌊seconds mod 60⌋`, and
`h*3600 + m*60 + s ≤ seconds < h*3600 + m*60 + s + 1`; in particular
`formatUptime(3665) = "1h 1m 5s"`. -/
theorem formatUptime_correct :
    (∀ q : ℚ, 0 ≤ q →
      formatUptime (.num q) =
        toString ⌊q / 3600⌋ ++ "h " ++
          toString ⌊(q - 3600 * (⌊q / 3600⌋ : ℚ)) / 60⌋ ++ "m " ++
          toString ⌊q - 60 * (⌊q / 60⌋ : ℚ)⌋ ++ "s" ∧
      (⌊q / 3600⌋ : ℚ) * 3600 + (⌊(q - 3600 * (⌊q / 3600⌋ : ℚ)) / 60⌋ : ℚ) * 60 +
          (⌊q - 60 * (⌊q / 60⌋ : ℚ)⌋ : ℚ) ≤ q ∧
      q < (⌊q / 3600⌋ : ℚ) * 3600 + (⌊(q - 3600 * (⌊q / 3600⌋ : ℚ)) / 60⌋ : ℚ) * 60 +
          (⌊q - 60 * (⌊q / 60⌋ : ℚ)⌋ : ℚ) + 1) ∧
    formatUptime (.num 3665) = "1h 1m 5s" := by
  constructor
  · intro q hq
    have hsum := uptime_components_floor q
    have hsumq : (⌊q / 3600⌋ : ℚ) * 3600 + (⌊(q - 3600 * (⌊q / 3600⌋ : ℚ)) / 60⌋ : ℚ) * 60 +
        (⌊q - 60 * (⌊q / 60⌋ : ℚ)⌋ : ℚ) = (⌊q⌋ : ℚ) := by
      exact_mod_cast congrArg (fun z : ℤ => (z : ℚ)) hsum
    refine ⟨formatUptime_num q hq, ?_, ?_⟩
    · rw [hsumq]
      exact Int.floor_le q
    · rw [hsumq]
      exact Int.lt_floor_add_one q
  · have h := formatUptime_natCast 3665
    norm_num at h
    rw [h]
    rfl

/-- Witness for C1 at `seconds = 3665`. -/
theorem formatUptime_correct_witness :
    (0 : ℚ) ≤ 3665 ∧
      (formatUptime (.num 3665) =
        toString ⌊(3665 : ℚ) / 3600⌋ ++ "h " ++
          toString ⌊((3665 : ℚ) - 3600 * (⌊(3665 : ℚ) / 3600⌋ : ℚ)) / 60⌋ ++ "m " ++
          toString ⌊(3665 : ℚ) - 60 * (⌊(3665 : ℚ) / 60⌋ : ℚ)⌋ ++ "s" ∧
      (⌊(3665 : ℚ) / 3600⌋ : ℚ) * 3600 +
          (⌊((3665 : ℚ) - 3600 * (⌊(3665 : ℚ) / 3600⌋ : ℚ)) / 60⌋ : ℚ) * 60 +
          (⌊(3665 : ℚ) - 60 * (⌊(3665 : ℚ) / 60⌋ : ℚ)⌋ : ℚ) ≤ (3665 : ℚ) ∧
      (3665 : ℚ) < (⌊(3665 : ℚ) / 3600⌋ : ℚ) * 3600 +
          (⌊((3665 : ℚ) - 3600 * (⌊(3665 : ℚ) / 3600⌋ : ℚ)) / 60⌋ : ℚ) * 60 +
          (⌊(3665 : ℚ) - 60 * (⌊(3665 : ℚ) / 60⌋ : ℚ)⌋ : ℚ) + 1) :=
  ⟨by norm_num, formatUptime_correct.1 3665 (by norm_num)⟩

/-- C2: a response with a non-success status code resolves to the failure
state; the message contains the numeric status code and the previously
held report is discarded, so no report is displayed. -/
theorem checkHealth_httpError (s : AppState) (st : ℕ) (b : BodyOutcome)
    (h : responseOk st = false) :
    checkHealth s (.returns ⟨st, b⟩) = failState (httpErrorMessage st) ∧
    (checkHealth s (.returns ⟨st, b⟩)).error = some (httpErrorMessage st) ∧
    (∃ pre : String, httpErrorMessage st = pre ++ toString st) ∧
    (checkHealth s (.returns ⟨st, b⟩)).healthData = none ∧
    displayedReport (checkHealth s (.returns ⟨st, b⟩)) = none := by
  refine ⟨?_, ?_, ⟨"HTTP error! status: ", rfl⟩, ?_, ?_⟩ <;>
    simp [checkHealth, checkHealthResolve, checkHealthStart, h, failState, displayedReport]

/-- Witness for C2 at status 403. -/
theorem checkHealth_httpError_witness :
    responseOk 403 = false ∧
      (checkHealth initialState (.returns ⟨403, .parsed samplePayload⟩) =
          failState (httpErrorMessage 403) ∧
        (checkHealth initialState (.returns ⟨403, .parsed samplePayload⟩)).error =
          some (httpErrorMessage 403) ∧
        (∃ pre : String, httpErrorMessage 403 = pre ++ toString 403) ∧
        (checkHealth initialState (.returns ⟨403, .parsed samplePayload⟩)).healthData = none ∧
        displayedReport (checkHealth initialState (.returns ⟨403, .parsed samplePayload⟩)) =
          none) :=
  ⟨by decide, checkHealth_httpError initialState 403 (.parsed samplePayload) (by decide)⟩

/-- C3: a transport failure whose thrown value is an `Error` resolves to
the failure state holding exactly the underlying error's message; with a
non-empty message the error box displays exactly that message, e.g.
"Failed to fetch". -/
theorem checkHealth_transportError :
    (∀ (s : AppState) (msg : String),
      checkHealth s (.throws (.isError msg)) = failState msg ∧
      (checkHealth s (.throws (.isError msg))).error = some msg ∧
      (checkHealth s (.throws (.isError msg))).healthData = none ∧
      (checkHealth s (.throws (.isError msg))).loading = false ∧
      (msg ≠ "" → displayedError (checkHealth s (.throws (.isError msg))) = some msg)) ∧
    displayedError (checkHealth initialState (.throws (.isError "Failed to fetch"))) =
      some "Failed to fetch" := by
  constructor
  · intro s msg
    refine ⟨rfl, rfl, rfl, rfl, fun h => ?_⟩
    simp [checkHealth, checkHealthResolve, checkHealthStart, failState, thrownMessage,
      displayedError, h]
  · decide

/-- Witness for C3 at message "Failed to fetch". -/
theorem checkHealth_transportError_witness :
    ("Failed to fetch" : String) ≠ "" ∧
      displayedError (checkHealth initialState (.throws (.isError "Failed to fetch"))) =
        some "Failed to fetch" :=
  ⟨by decide,
    (checkHealth_transportError.1 initialState "Failed to fetch").2.2.2.2 (by decide)⟩

/-- C4 counterexample: an absent `uptime` field does not render as the
zero representation `"0h 0m 0s"`; `Math.floor(undefined / 3600)` is `NaN`
and the uptime renders as `"NaNh NaNm NaNs"`. -/
theorem absentUptime_not_zero_render :
    renderedUptime emptyPayload = "NaNh NaNm NaNs" ∧
    formatUptime (.num 0) = "0h 0m 0s" ∧
    renderedUptime emptyPayload ≠ formatUptime (.num 0) := by
  have h1 : renderedUptime emptyPayload = "NaNh NaNm NaNs" := by decide
  have h0 := formatUptime_natCast 0
  norm_num at h0
  have h2 : formatUptime (.num 0) = "0h 0m 0s" := by
    rw [h0]
    decide
  exact ⟨h1, h2, by rw [h1, h2]; decide⟩

/-- C4 (amended): a body that fails to parse resolves exactly as a
transport failure with the same thrown value; a successfully parsed
payload with absent fields renders without throwing — absent string
fields render as empty, while an absent `uptime` renders as
`"NaNh NaNm NaNs"` (not the zero representation). -/
theorem parseFailure_like_transport_and_absent_fields_total :
    (∀ (s : AppState) (st : ℕ) (v : ThrownValue), responseOk st = true →
      checkHealth s (.returns ⟨st, .throws v⟩) = checkHealth s (.throws v)) ∧
    renderedStatus emptyPayload = "" ∧
    renderedEnvironment emptyPayload = "" ∧
    renderedMessage emptyPayload = "" ∧
    renderedUptime emptyPayload = "NaNh NaNm NaNs" := by
  refine ⟨fun s st v h => ?_, by decide, by decide, by decide, by decide⟩
  simp [checkHealth, checkHealthResolve, checkHealthStart, h]

/-- Witness for C4's amended claim at status 200 and a JSON syntax error. -/
theorem parseFailure_like_transport_witness :
    responseOk 200 = true ∧
      checkHealth initialState
          (.returns ⟨200, .throws (.isError "Unexpected end of JSON input")⟩) =
        checkHealth initialState (.throws (.isError "Unexpected end of JSON input")) :=
  ⟨by decide,
    parseFailure_like_transport_and_absent_fields_total.1 initialState 200
      (.isError "Unexpected end of JSON input") (by decide)⟩

/-- C5: clicking while a call is in flight (`loading = true`) changes
nothing and issues no network request — the `disabled={loading}` guard
makes re-triggering a no-op until the in-flight call resolves. -/
theorem trigger_whileLoading_noop (s : AppState) (baseUrl : String) (o : FetchOutcome)
    (h : s.loading = true) :
    triggerStart s baseUrl = (s, []) ∧ triggerComplete s baseUrl o = (s, []) := by
  constructor <;> simp [triggerStart, triggerComplete, h]

/-- Witness for C5 in a loading state. -/
theorem trigger_whileLoading_noop_witness :
    (AppState.mk none true none).loading = true ∧
      (triggerStart ⟨none, true, none⟩ "http://localhost:8000" = (⟨none, true, none⟩, []) ∧
        triggerComplete ⟨none, true, none⟩ "http://localhost:8000" (.throws .notError) =
          (⟨none, true, none⟩, [])) :=
  ⟨rfl, trigger_whileLoading_noop ⟨none, true, none⟩ "http://localhost:8000"
    (.throws .notError) rfl⟩

/-- C6: a success-status response with a parsing body resolves to the
success state holding exactly the parsed report, with any prior report
replaced wholesale and the error cleared. -/
theorem checkHealth_success (s : AppState) (st : ℕ) (data : HealthPayload)
    (h : responseOk st = true) :
    checkHealth s (.returns ⟨st, .parsed data⟩) =
      { healthData := some data, loading := false, error := none } := by
  simp [checkHealth, checkHealthResolve, checkHealthStart, h]

/-- Witness for C6: a 200 response replaces a prior failure state. -/
theorem checkHealth_success_witness :
    responseOk 200 = true ∧
      checkHealth (failState "old") (.returns ⟨200, .parsed samplePayload⟩) =
        { healthData := some samplePayload, loading := false, error := none } :=
  ⟨by decide, checkHealth_success (failState "old") 200 samplePayload (by decide)⟩

/-- C7: a click in a non-loading state enters the loading state, clears
the prior error, and issues exactly one GET request to the configured
base URL followed by `/api/health`. -/
theorem trigger_start_issues_get (s : AppState) (env : Option String)
    (h : s.loading = false) :
    triggerStart s (BACKEND_URL env) =
      ({ s with loading := true, error := none }, [healthRequest (BACKEND_URL env)]) ∧
    (healthRequest (BACKEND_URL env)).method = "GET" ∧
    (healthRequest (BACKEND_URL env)).url = BACKEND_URL env ++ "/api/health" := by
  refine ⟨?_, rfl, rfl⟩
  simp [triggerStart, h, checkHealthStart]

/-- Witness for C7 from the initial state with no configured override. -/
theorem trigger_start_issues_get_witness :
    initialState.loading = false ∧
      (triggerStart initialState (BACKEND_URL none) =
        ({ initialState with loading := true, error := none },
          [healthRequest (BACKEND_URL none)]) ∧
      (healthRequest (BACKEND_URL none)).method = "GET" ∧
      (healthRequest (BACKEND_URL none)).url = BACKEND_URL none ++ "/api/health") :=
  ⟨rfl, trigger_start_issues_get initialState none rfl⟩

/-- C8: every non-success outcome — transport rejection, non-success
status, body parse failure, or a non-`Error` thrown value — is absorbed by
the `catch`/`finally` of the invocation into a failure state; the
resolution function is total over all outcomes, so nothing escapes the
action's boundary, and `finally` always clears `loading`. -/
theorem checkHealth_failures_absorbed :
    (∀ (s : AppState) (o : FetchOutcome), (checkHealth s o).loading = false) ∧
    (∀ (s : AppState) (o : FetchOutcome), isSuccessOutcome o = false →
      ∃ msg, checkHealth s o = failState msg) := by
  constructor
  · intro s o
    cases o with
    | throws v => rfl
    | returns r =>
      rcases r with ⟨st, body⟩
      by_cases hok : responseOk st = true
      · cases body with
        | throws v => simp [checkHealth, checkHealthResolve, checkHealthStart, hok, failState]
        | parsed d => simp [checkHealth, checkHealthResolve, checkHealthStart, hok]
      · simp [checkHealth, checkHealthResolve, checkHealthStart, hok, failState]
  · intro s o h
    cases o with
    | throws v => exact ⟨thrownMessage v, rfl⟩
    | returns r =>
      rcases r with ⟨st, body⟩
      cases body with
      | throws v =>
        by_cases hok : responseOk st = true
        · exact ⟨thrownMessage v, by
            simp [checkHealth, checkHealthResolve, checkHealthStart, hok]⟩
        · exact ⟨httpErrorMessage st, by
            simp [checkHealth, checkHealthResolve, checkHealthStart, hok]⟩
      | parsed data =>
        have hok : responseOk st = false := by simpa [isSuccessOutcome] using h
        exact ⟨httpErrorMessage st, by
          simp [checkHealth, checkHealthResolve, checkHealthStart, hok]⟩

/-- Witness for C8 on a thrown non-`Error` value. -/
theorem checkHealth_failures_absorbed_witness :
    isSuccessOutcome (.throws .notError) = false ∧
      ∃ msg, checkHealth initialState (.throws .notError) = failState msg :=
  ⟨rfl, checkHealth_failures_absorbed.2 initialState (.throws .notError) rfl⟩

/-- C9: the state after an invocation does not depend on the state before
it, so for two sequential invocations the final state is determined solely
by the second outcome — no residual state survives. -/
theorem checkHealth_no_state_leak :
    (∀ (s t : AppState) (o : FetchOutcome), checkHealth s o = checkHealth t o) ∧
    (∀ (s : AppState) (o₁ o₂ : FetchOutcome),
      checkHealth (checkHealth s o₁) o₂ = checkHealth s o₂) := by
  have key : ∀ (s t : AppState) (o : FetchOutcome), checkHealth s o = checkHealth t o := by
    intro s t o
    cases o with
    | throws v => rfl
    | returns r =>
      rcases r with ⟨st, body⟩
      by_cases hok : responseOk st = true
      · cases body with
        | throws v => simp [checkHealth, checkHealthResolve, checkHealthStart, hok]
        | parsed d => simp [checkHealth, checkHealthResolve, checkHealthStart, hok]
      · simp [checkHealth, checkHealthResolve, checkHealthStart, hok]
  exact ⟨key, fun s o₁ o₂ => key (checkHealth s o₁) s o₂⟩

/-- C10: after any completed invocation the failure and success cells are
mutually exclusive — the error message and the held report are never both
present, so the two boxes are never rendered together. -/
theorem error_report_exclusive (s : AppState) (o : FetchOutcome) :
    ((checkHealth s o).error = none ∨ (checkHealth s o).healthData = none) ∧
    (displayedError (checkHealth s o) = none ∨ displayedReport (checkHealth s o) = none) := by
  have key : (checkHealth s o).error = none ∨ (checkHealth s o).healthData = none := by
    cases o with
    | throws v => right; rfl
    | returns r =>
      rcases r with ⟨st, body⟩
      by_cases hok : responseOk st = true
      · cases body with
        | throws v =>
          right
          simp [checkHealth, checkHealthResolve, checkHealthStart, hok, failState]
        | parsed d =>
          left
          simp [checkHealth, checkHealthResolve, checkHealthStart, hok]
      · right
        simp [checkHealth, checkHealthResolve, checkHealthStart, hok, failState]
  refine ⟨key, ?_⟩
  rcases key with h | h
  · left
    simp [displayedError, h]
  · right
    simp [displayedReport, h]
